import Mathlib

/-!
Shallow embedding of the code-review agent's tool layer (src/tools.ts) and
proofs about the specification's claims.

The three tools are embedded as pure Lean functions:

- getFileChangesInDirectory: the git diff summary (an external collaborator)
  is modelled as an input list of per-file summary entries, and the per-file
  diff query as a function from file name to diff text.
- generateCommitMessage: the same summary list plus a maximum length.
- writeMarkdownFile: filesystem side effects are modelled by explicit state
  passing of a small filesystem record; the wall-clock timestamp is an
  explicit argument.

JavaScript string primitives used by the source (endsWith, substring,
template literals, join from the path module) are embedded over Lean
strings; all inputs of interest are ASCII, where JS code-unit counting and
Lean character counting agree.
-/

namespace MyAgent

/-- One entry of the git diff summary, as produced by the external
simple-git collaborator. For binary files the summary entry carries no
change-count fields, which the source probes with the JS "in" operator;
this union shape is modelled with optional fields. -/
structure DiffSummaryFile where
  file : String
  changes : Option Nat
  insertions : Option Nat
  deletions : Option Nat
deriving DecidableEq, Repr

/-- The record pushed by the loop of getFileChangesInDirectory in
src/tools.ts: the file name and its diff text, nothing else. -/
structure FileDiff where
  file : String
  diff : String
deriving DecidableEq, Repr

/-- One element of the changedFiles array built by generateCommitMessage
(src/tools.ts lines 52-59): counts defaulted to 0 when absent. -/
structure ChangedFile where
  file : String
  changes : Nat
  insertions : Nat
  deletions : Nat
deriving DecidableEq, Repr

/-- The exclusion list of src/tools.ts line 7. -/
def excludeFiles : List String := ["dist", "bun.lock"]

/-- Embedding of getFileChangesInDirectory (src/tools.ts lines 15-27):
iterate over the summary entries in order, skip entries whose file name is
in the exclusion list, and push the file name with its diff text. -/
def getFileChangesInDirectory : List DiffSummaryFile → (String → String) → List FileDiff
  | [], _ => []
  | f :: rest, gitDiff =>
    if excludeFiles.contains f.file then getFileChangesInDirectory rest gitDiff
    else ⟨f.file, gitDiff f.file⟩ :: getFileChangesInDirectory rest gitDiff

/-- The changedFiles array of generateCommitMessage (src/tools.ts lines
52-59): drop excluded files, default absent counts to 0. -/
def changedFilesOf (files : List DiffSummaryFile) : List ChangedFile :=
  (files.filter fun f => !(excludeFiles.contains f.file)).map fun f =>
    ⟨f.file, f.changes.getD 0, f.insertions.getD 0, f.deletions.getD 0⟩

/-- The newFiles bucket (src/tools.ts line 62): insertions > 0 and
deletions === 0. -/
def newFiles (cf : List ChangedFile) : List ChangedFile :=
  cf.filter fun f => decide (f.insertions > 0) && decide (f.deletions = 0)

/-- The deletedFiles bucket (src/tools.ts line 63): insertions === 0 and
deletions > 0. -/
def deletedFiles (cf : List ChangedFile) : List ChangedFile :=
  cf.filter fun f => decide (f.insertions = 0) && decide (f.deletions > 0)

/-- The modifiedFiles bucket (src/tools.ts line 64): insertions > 0 and
deletions > 0. -/
def modifiedFiles (cf : List ChangedFile) : List ChangedFile :=
  cf.filter fun f => decide (f.insertions > 0) && decide (f.deletions > 0)

/-- The headline together with its optional example listing, exactly the
if/else-if chain of src/tools.ts lines 66-83. -/
def bucketMessage (cf : List ChangedFile) : String :=
  if (newFiles cf).length > 0 then
    "Add " ++ toString (newFiles cf).length ++ " new file" ++
      (if (newFiles cf).length > 1 then "s" else "") ++
      (if (newFiles cf).length ≤ 3 then
        ": " ++ String.intercalate ", " ((newFiles cf).map (·.file))
      else "")
  else if (deletedFiles cf).length > 0 then
    "Remove " ++ toString (deletedFiles cf).length ++ " file" ++
      (if (deletedFiles cf).length > 1 then "s" else "") ++
      (if (deletedFiles cf).length ≤ 3 then
        ": " ++ String.intercalate ", " ((deletedFiles cf).map (·.file))
      else "")
  else if (modifiedFiles cf).length > 0 then
    "Update " ++ toString (modifiedFiles cf).length ++ " file" ++
      (if (modifiedFiles cf).length > 1 then "s" else "") ++
      (if (modifiedFiles cf).length ≤ 3 then
        ": " ++ String.intercalate ", " ((modifiedFiles cf).map (·.file))
      else "")
  else ""

/-- Sum of insertions over all filtered records (src/tools.ts line 86). -/
def totalInsertions (cf : List ChangedFile) : Nat :=
  cf.foldl (fun sum f => sum + f.insertions) 0

/-- Sum of deletions over all filtered records (src/tools.ts line 87). -/
def totalDeletions (cf : List ChangedFile) : Nat :=
  cf.foldl (fun sum f => sum + f.deletions) 0

/-- The aggregate-stats tail appended by src/tools.ts lines 89-91. -/
def statsTail (cf : List ChangedFile) : String :=
  if totalInsertions cf > 0 ∨ totalDeletions cf > 0 then
    " (+" ++ toString (totalInsertions cf) ++ " -" ++ toString (totalDeletions cf) ++ ")"
  else ""

/-- The commit message as assembled before the length check (src/tools.ts
lines 66-91). -/
def assembledMessage (cf : List ChangedFile) : String :=
  bucketMessage cf ++ statsTail cf

/-- The length check of src/tools.ts lines 94-96. JS substring clamps a
negative end index to 0; with a Nat maxLength the truncated subtraction
maxLength - 3 produces the same clamping. -/
def truncateMessage (msg : String) (maxLength : Nat) : String :=
  if msg.length > maxLength then String.mk (msg.data.take (maxLength - 3)) ++ "..."
  else msg

/-- Embedding of generateCommitMessage (src/tools.ts lines 43-99). The git
diff summary is the files argument; maxLength defaults to 72 at the
call-schema level. -/
def generateCommitMessage (files : List DiffSummaryFile) (maxLength : Nat) : String :=
  if files.length = 0 then "No changes detected"
  else truncateMessage (assembledMessage (changedFilesOf files)) maxLength

/-- JS String.prototype.endsWith over ASCII strings: the argument is a
suffix of the receiver. -/
def jsEndsWith (s t : String) : Bool := decide (t.data <:+ s.data)

/-- The filename normalization of src/tools.ts line 123: append ".md"
unless the filename already ends with it. -/
def markdownFilename (filename : String) : String :=
  if jsEndsWith filename ".md" then filename else filename ++ ".md"

/-- Split on the slash separator, keeping empty segments, as JS
String.prototype.split("/") does. Auxiliary recursion carrying the
current segment reversed. -/
def splitSlashAux : List Char → List Char → List String
  | [], acc => [String.mk acc.reverse]
  | c :: rest, acc =>
    if c = '/' then String.mk acc.reverse :: splitSlashAux rest []
    else splitSlashAux rest (c :: acc)

/-- JS split("/") on a string. -/
def splitSlash (s : String) : List String := splitSlashAux s.data []

/-- One step of Node path normalization over the segment stack (held in
reverse): drop empty and "." segments; ".." pops a real segment, stays
when the stack top is already "..", and at the bottom survives only for
relative paths. -/
def normSegStep (allowAboveRoot : Bool) (stack : List String) (seg : String) : List String :=
  if seg = "" ∨ seg = "." then stack
  else if seg = ".." then
    match stack with
    | top :: rest => if top = ".." then seg :: stack else rest
    | [] => if allowAboveRoot then [".."] else []
  else seg :: stack

/-- Node's normalizeString: resolve "." and ".." segments and rejoin with
slashes. -/
def normalizeSegments (s : String) (allowAboveRoot : Bool) : String :=
  String.intercalate "/" (((splitSlash s).foldl (normSegStep allowAboveRoot) []).reverse)

/-- Whether the path string starts with a slash. -/
def isAbsolutePath (p : String) : Bool := p.data.head? = some '/'

/-- Whether the path string ends with a slash. -/
def hasTrailingSlash (p : String) : Bool := p.data.getLast? = some '/'

/-- Node path.posix.normalize, as the join implementation applies it. -/
def posixNormalize (p : String) : String :=
  if p.length = 0 then "."
  else
    let isAbs := isAbsolutePath p
    let trailing := hasTrailingSlash p
    let core := normalizeSegments p (!isAbs)
    if core.length = 0 then
      if isAbs then "/" else if trailing then "./" else "."
    else
      let core := if trailing then core ++ "/" else core
      if isAbs then "/" ++ core else core

/-- Node path.join restricted to the two arguments used by the source:
concatenate the non-empty arguments with a slash and normalize. -/
def posixJoin (a b : String) : String :=
  let joined := if a.length > 0 then (if b.length > 0 then a ++ "/" ++ b else a) else b
  if joined.length = 0 then "." else posixNormalize joined

/-- A small filesystem state: the set of directories known to exist and
the files with their contents. -/
structure FileSystem where
  dirs : List String
  files : List (String × String)
deriving Repr

/-- existsSync on a directory path. -/
def existsSyncDir (fs : FileSystem) (d : String) : Bool := fs.dirs.contains d

/-- mkdirSync with the recursive flag: record the directory as existing. -/
def mkdirSyncRec (fs : FileSystem) (d : String) : FileSystem :=
  { fs with dirs := d :: fs.dirs }

/-- writeFileSync: overwrite the file at the path with the content. -/
def writeFileSyncAt (fs : FileSystem) (path content : String) : FileSystem :=
  { fs with files := (path, content) :: fs.files.filter fun p => !(p.1 = path : Bool) }

/-- The result object returned by writeMarkdownFile (src/tools.ts lines
133-137). -/
structure WriteResult where
  success : Bool
  filePath : String
  message : String
deriving DecidableEq, Repr

/-- Embedding of writeMarkdownFile (src/tools.ts lines 116-138): ensure
the directory exists, normalize the filename to end with ".md", join the
path, prepend the generated header with the call-time timestamp, write the
file, and return the result object. The directory argument defaults to "."
at the call-schema level; the timestamp is passed explicitly. -/
def writeMarkdownFile (fs : FileSystem) (content filename directory timestamp : String) :
    FileSystem × WriteResult :=
  let fs := if existsSyncDir fs directory then fs else mkdirSyncRec fs directory
  let mdName := markdownFilename filename
  let filePath := posixJoin directory mdName
  let header := "# Code Review Report\n\n*Generated on: " ++ timestamp ++ "*\n\n---\n\n"
  let fullContent := header ++ content
  (writeFileSyncAt fs filePath fullContent,
   ⟨true, filePath, "Markdown file written successfully to " ++ filePath⟩)

/-! Helper lemmas shared by the claim theorems. -/

/-- The loop of getFileChangesInDirectory is the filter of the summary by
the exclusion list followed by the per-file diff query, in order. -/
theorem getFileChanges_eq_filterMap (files : List DiffSummaryFile) (gitDiff : String → String) :
    getFileChangesInDirectory files gitDiff =
      (files.filter fun f => !(excludeFiles.contains f.file)).map fun f =>
        ⟨f.file, gitDiff f.file⟩ := by
  induction files with
  | nil => rfl
  | cons f rest ih =>
    rw [getFileChangesInDirectory, List.filter_cons]
    cases h : excludeFiles.contains f.file
    · simp [ih]
    · simp [ih]

/-- Membership in the exclusion list is exact string equality with one of
its two entries. -/
theorem contains_excludeFiles_iff (s : String) :
    excludeFiles.contains s = true ↔ s = "dist" ∨ s = "bun.lock" := by
  simp [excludeFiles, List.contains, List.elem_iff]

/-- Every element of the changedFiles array comes from a summary entry,
with absent counts defaulted to 0. -/
theorem mem_changedFilesOf {files : List DiffSummaryFile} {g : ChangedFile}
    (hg : g ∈ changedFilesOf files) :
    ∃ f ∈ files, g = ⟨f.file, f.changes.getD 0, f.insertions.getD 0, f.deletions.getD 0⟩ := by
  simp only [changedFilesOf, List.mem_map, List.mem_filter] at hg
  obtain ⟨f, ⟨hf, _⟩, rfl⟩ := hg
  exact ⟨f, hf, rfl⟩

/-- On an empty filtered list the assembled message is empty. -/
theorem assembledMessage_nil : assembledMessage [] = "" := by decide

/-- An empty message is never truncated. -/
theorem truncateMessage_empty (ml : Nat) : truncateMessage "" ml = "" := by
  unfold truncateMessage
  rw [if_neg]
  simp [String.length]

/-- Truncation output when the message is over the bound. -/
theorem truncateMessage_of_gt (msg : String) (ml : Nat) (h : msg.length > ml) :
    truncateMessage msg ml = String.mk (msg.data.take (ml - 3)) ++ "..." := by
  unfold truncateMessage
  rw [if_pos h]

/-- Length of a truncated message: the kept characters plus the three dots. -/
theorem length_truncated (msg : String) (ml : Nat) (h : msg.length > ml) :
    (truncateMessage msg ml).length = min (ml - 3) msg.length + 3 := by
  rw [truncateMessage_of_gt msg ml h, String.length_append]
  show (msg.data.take (ml - 3)).length + 3 = _
  rw [List.length_take]
  rfl

/-- A normalized filename always ends with ".md". -/
theorem jsEndsWith_markdownFilename (filename : String) :
    jsEndsWith (markdownFilename filename) ".md" = true := by
  unfold markdownFilename
  by_cases h : jsEndsWith filename ".md" = true
  · rw [if_pos h]; exact h
  · rw [if_neg h]
    simp [jsEndsWith, String.data_append, List.suffix_append]

/-! The claims. -/

/-- C4 counterexample: two diff summaries that differ only in their
insertion and deletion counts produce identical getFileChangesInDirectory
outputs, so the returned records cannot carry those counts, contrary to
the claim. -/
theorem C4_counterexample :
    getFileChangesInDirectory [⟨"a.ts", none, some 10, some 0⟩] (fun _ => "DIFF") =
      getFileChangesInDirectory [⟨"a.ts", none, some 3, some 7⟩] (fun _ => "DIFF") ∧
    (⟨"a.ts", none, some 10, some 0⟩ : DiffSummaryFile) ≠ ⟨"a.ts", none, some 3, some 7⟩ := by
  decide

/-- C4 (amended): getChanges returns one record per non-excluded summary
entry, in discovery order, carrying the file path and its diff text (and
nothing else: the returned record type has no count fields). -/
theorem C4_record_sequence (files : List DiffSummaryFile) (gitDiff : String → String) :
    getFileChangesInDirectory files gitDiff =
      (files.filter fun f => !(excludeFiles.contains f.file)).map fun f =>
        ⟨f.file, gitDiff f.file⟩ :=
  getFileChanges_eq_filterMap files gitDiff

/-- C8: exclusion is exact whole-string equality with "dist" or
"bun.lock"; the path "dist/index.js" is not excluded and is processed like
any other changed file by both tools. -/
theorem C8_exact_exclusion (s : String) (gitDiff : String → String) :
    (excludeFiles.contains s = true ↔ s = "dist" ∨ s = "bun.lock") ∧
    getFileChangesInDirectory [⟨"dist/index.js", none, some 5, some 2⟩] gitDiff =
      [⟨"dist/index.js", gitDiff "dist/index.js"⟩] ∧
    changedFilesOf [⟨"dist/index.js", none, some 5, some 2⟩] = [⟨"dist/index.js", 0, 5, 2⟩] := by
  refine ⟨contains_excludeFiles_iff s, ?_, by decide⟩
  rw [getFileChanges_eq_filterMap]
  have h : ¬("dist/index.js" ∈ excludeFiles) := by decide
  simp [List.filter_cons, h]

/-- C10: the value returned by writeMarkdownFile always has success true,
its filePath is the join of the directory and the normalized filename, and
its message is the fixed confirmation text followed by that path. -/
theorem C10_write_result (fs : FileSystem) (content filename directory timestamp : String) :
    (writeMarkdownFile fs content filename directory timestamp).2.success = true ∧
    (writeMarkdownFile fs content filename directory timestamp).2.filePath =
      posixJoin directory (markdownFilename filename) ∧
    (writeMarkdownFile fs content filename directory timestamp).2.message =
      "Markdown file written successfully to " ++
        (writeMarkdownFile fs content filename directory timestamp).2.filePath :=
  ⟨rfl, rfl, rfl⟩

/-- C7 counterexample: the filename "notes" with the default directory "."
resolves to the path "notes.md", because Node's path.join normalizes the
"." segment away; it does not resolve to "./notes.md" as the claim
states. -/
theorem C7_counterexample :
    (writeMarkdownFile ⟨[], []⟩ "content" "notes" "." "2026-01-01T00:00:00.000Z").2.filePath =
      "notes.md" ∧
    ("notes.md" : String) ≠ "./notes.md" := by
  decide

/-- C7 (amended): the filename is normalized to end with ".md" by
appending the extension exactly when absent, the normalization is
idempotent, and "notes" with the default directory resolves to "notes.md"
(the join of "." and "notes.md" after path normalization). -/
theorem C7_md_normalization (filename : String) :
    markdownFilename "notes" = "notes.md" ∧
    posixJoin "." (markdownFilename "notes") = "notes.md" ∧
    markdownFilename "notes.md" = "notes.md" ∧
    markdownFilename (markdownFilename filename) = markdownFilename filename := by
  refine ⟨by decide, by decide, by decide, ?_⟩
  have hunfold : markdownFilename (markdownFilename filename) =
      if jsEndsWith (markdownFilename filename) ".md" = true then markdownFilename filename
      else markdownFilename filename ++ ".md" := rfl
  rw [hunfold, if_pos (jsEndsWith_markdownFilename filename)]

/-- C2 counterexample: a summary containing only the excluded file "dist"
has an empty filtered form, yet generateCommitMessage returns the empty
string, not "No changes detected". -/
theorem C2_counterexample :
    changedFilesOf [⟨"dist", some 1, some 1, some 0⟩] = [] ∧
    generateCommitMessage [⟨"dist", some 1, some 1, some 0⟩] 72 = "" ∧
    ("" : String) ≠ "No changes detected" := by
  decide

/-- C2 (amended): the sentinel "No changes detected" is returned exactly
when the raw, pre-filter summary is empty, for every maxLength; when the
raw summary is non-empty but its filtered form is empty, the empty string
is returned instead. -/
theorem C2_sentinel_on_raw_empty (files : List DiffSummaryFile) (ml : Nat) :
    (files = [] → generateCommitMessage files ml = "No changes detected") ∧
    (files ≠ [] → changedFilesOf files = [] → generateCommitMessage files ml = "") := by
  constructor
  · rintro rfl; rfl
  · intro h1 h2
    unfold generateCommitMessage
    rw [if_neg (by simpa [List.length_eq_zero] using h1), h2, assembledMessage_nil,
      truncateMessage_empty]

/-- C1 counterexample: at maxLength 1 (positive, as the claim allows) a
non-empty summary is truncated to "...", which has length 3 > 1, so the
length bound fails. -/
theorem C1_counterexample :
    generateCommitMessage [⟨"a.ts", some 1, some 1, some 0⟩] 1 = "..." ∧
    ¬((generateCommitMessage [⟨"a.ts", some 1, some 1, some 0⟩] 1).length ≤ 1) := by
  decide

/-- C1 (amended): for every non-empty summary, the output length is at
most maxLength whenever maxLength is at least 3, and whenever truncation
occurs (the assembled message exceeds maxLength) the output ends with
"...". -/
theorem C1_truncation_bound (files : List DiffSummaryFile) (ml : Nat) (h1 : files ≠ []) :
    (3 ≤ ml → (generateCommitMessage files ml).length ≤ ml) ∧
    (ml < (assembledMessage (changedFilesOf files)).length →
      ∃ t, generateCommitMessage files ml = t ++ "...") := by
  have hne : ¬(files.length = 0) := by simpa [List.length_eq_zero] using h1
  unfold generateCommitMessage
  rw [if_neg hne]
  constructor
  · intro h2
    by_cases h3 : (assembledMessage (changedFilesOf files)).length > ml
    · rw [length_truncated _ _ h3]
      have := Nat.min_le_left (ml - 3) (assembledMessage (changedFilesOf files)).length
      omega
    · unfold truncateMessage
      rw [if_neg h3]
      omega
  · intro h3
    rw [truncateMessage_of_gt _ _ h3]
    exact ⟨_, rfl⟩

/-- C1 witness: the amended statement at a one-file summary whose
assembled message exceeds maxLength 5. -/
theorem C1_witness :
    ([⟨"a.ts", some 1, some 1, some 0⟩] : List DiffSummaryFile) ≠ [] ∧
    ((3 ≤ 5 → (generateCommitMessage [⟨"a.ts", some 1, some 1, some 0⟩] 5).length ≤ 5) ∧
     (5 < (assembledMessage (changedFilesOf [⟨"a.ts", some 1, some 1, some 0⟩])).length →
       ∃ t, generateCommitMessage [⟨"a.ts", some 1, some 1, some 0⟩] 5 = t ++ "...")) :=
  ⟨by decide, C1_truncation_bound [⟨"a.ts", some 1, some 1, some 0⟩] 5 (by decide)⟩

/-- C9: when the assembled message exceeds maxLength and maxLength is at
least 3, the returned string has length exactly maxLength. -/
theorem C9_exact_truncated_length (files : List DiffSummaryFile) (ml : Nat)
    (h1 : files ≠ []) (h2 : 3 ≤ ml)
    (h3 : ml < (assembledMessage (changedFilesOf files)).length) :
    (generateCommitMessage files ml).length = ml := by
  have hne : ¬(files.length = 0) := by simpa [List.length_eq_zero] using h1
  unfold generateCommitMessage
  rw [if_neg hne, length_truncated _ _ h3, Nat.min_eq_left (by omega)]
  omega

/-- C9 witness: a one-file summary at maxLength 10 whose assembled message
has length 28; the output has length exactly 10. -/
theorem C9_witness :
    ([⟨"b.ts", some 2, some 2, some 0⟩] : List DiffSummaryFile) ≠ [] ∧ 3 ≤ 10 ∧
    10 < (assembledMessage (changedFilesOf [⟨"b.ts", some 2, some 2, some 0⟩])).length ∧
    (generateCommitMessage [⟨"b.ts", some 2, some 2, some 0⟩] 10).length = 10 :=
  ⟨by decide, by decide, by decide,
   C9_exact_truncated_length [⟨"b.ts", some 2, some 2, some 0⟩] 10 (by decide) (by decide)
     (by decide)⟩

/-- C2 witness: the amended statement evaluated at the empty summary and
at a summary holding only the excluded file "dist". -/
theorem C2_witness :
    generateCommitMessage [] 7 = "No changes detected" ∧
    ([⟨"dist", some 2, some 2, some 0⟩] : List DiffSummaryFile) ≠ [] ∧
    changedFilesOf [⟨"dist", some 2, some 2, some 0⟩] = [] ∧
    generateCommitMessage [⟨"dist", some 2, some 2, some 0⟩] 50 = "" :=
  ⟨(C2_sentinel_on_raw_empty [] 7).1 rfl, by decide, by decide,
   (C2_sentinel_on_raw_empty [⟨"dist", some 2, some 2, some 0⟩] 50).2 (by decide) (by decide)⟩

/-- When every summary entry is a pure addition, the Added bucket is the
whole filtered list. -/
theorem newFiles_eq_self_of_pure {files : List DiffSummaryFile}
    (h : ∀ f ∈ files, 0 < f.insertions.getD 0 ∧ f.deletions.getD 0 = 0) :
    newFiles (changedFilesOf files) = changedFilesOf files := by
  apply List.filter_eq_self.mpr
  intro g hg
  obtain ⟨f, hf, rfl⟩ := mem_changedFilesOf hg
  have hp := h f hf
  simp [hp.1, hp.2]

/-- C3 counterexample: the claim's own example input yields the headline
"Add 2 new files", not "Add 2 files"; the source inserts the word "new"
into the Added headline. -/
theorem C3_counterexample :
    generateCommitMessage
        [⟨"a.ts", some 10, some 10, some 0⟩, ⟨"b.ts", some 3, some 3, some 0⟩] 72 =
      "Add 2 new files: a.ts, b.ts (+13 -0)" ∧
    ("Add 2 new files: a.ts, b.ts (+13 -0)" : String) ≠ "Add 2 files: a.ts, b.ts (+13 -0)" := by
  decide

/-- C3 (amended): for every summary whose filtered form is non-empty and
in which every record is a pure addition, the headline begins with
"Add N new file" when N is 1 and "Add N new files" otherwise, N being the
Added bucket size; the claim's example yields
"Add 2 new files: a.ts, b.ts (+13 -0)". -/
theorem C3_add_headline (files : List DiffSummaryFile)
    (h1 : changedFilesOf files ≠ [])
    (h2 : ∀ f ∈ files, 0 < f.insertions.getD 0 ∧ f.deletions.getD 0 = 0) :
    (∃ r, bucketMessage (changedFilesOf files) =
      "Add " ++ toString (newFiles (changedFilesOf files)).length ++ " new file" ++
        (if (newFiles (changedFilesOf files)).length = 1 then "" else "s") ++ r) ∧
    generateCommitMessage
        [⟨"a.ts", some 10, some 10, some 0⟩, ⟨"b.ts", some 3, some 3, some 0⟩] 72 =
      "Add 2 new files: a.ts, b.ts (+13 -0)" := by
  refine ⟨?_, by decide⟩
  have hnf := newFiles_eq_self_of_pure h2
  have hpos : (newFiles (changedFilesOf files)).length > 0 := by
    rw [hnf]
    exact List.length_pos.mpr h1
  unfold bucketMessage
  rw [if_pos hpos]
  refine ⟨if (newFiles (changedFilesOf files)).length ≤ 3 then
      ": " ++ String.intercalate ", " ((newFiles (changedFilesOf files)).map (·.file))
    else "", ?_⟩
  congr 2
  by_cases h : (newFiles (changedFilesOf files)).length = 1
  · simp [h]
  · have : (newFiles (changedFilesOf files)).length > 1 := by omega
    simp [h, this]

/-- C3 witness: the amended headline statement at a single pure-addition
record. -/
theorem C3_witness :
    changedFilesOf [⟨"c.ts", some 4, some 4, some 0⟩] ≠ [] ∧
    (∀ f ∈ ([⟨"c.ts", some 4, some 4, some 0⟩] : List DiffSummaryFile),
      0 < f.insertions.getD 0 ∧ f.deletions.getD 0 = 0) ∧
    ((∃ r, bucketMessage (changedFilesOf [⟨"c.ts", some 4, some 4, some 0⟩]) =
      "Add " ++ toString (newFiles (changedFilesOf [⟨"c.ts", some 4, some 4, some 0⟩])).length ++
        " new file" ++
        (if (newFiles (changedFilesOf [⟨"c.ts", some 4, some 4, some 0⟩])).length = 1 then ""
         else "s") ++ r) ∧
    generateCommitMessage
        [⟨"a.ts", some 10, some 10, some 0⟩, ⟨"b.ts", some 3, some 3, some 0⟩] 72 =
      "Add 2 new files: a.ts, b.ts (+13 -0)") :=
  ⟨by decide, by decide,
   C3_add_headline [⟨"c.ts", some 4, some 4, some 0⟩] (by decide) (by decide)⟩

/-- C5: on a non-empty filtered list, the headline verb and count come
from the first non-empty bucket in the fixed order Added, Deleted,
Modified: "Add" with the Added count whenever the Added bucket is
non-empty, otherwise "Remove" with the Deleted count, otherwise "Update"
with the Modified count. -/
theorem C5_bucket_precedence (cf : List ChangedFile) (_h : cf ≠ []) :
    (newFiles cf ≠ [] →
      ∃ r, bucketMessage cf = "Add " ++ toString (newFiles cf).length ++ r) ∧
    (newFiles cf = [] → deletedFiles cf ≠ [] →
      ∃ r, bucketMessage cf = "Remove " ++ toString (deletedFiles cf).length ++ r) ∧
    (newFiles cf = [] → deletedFiles cf = [] → modifiedFiles cf ≠ [] →
      ∃ r, bucketMessage cf = "Update " ++ toString (modifiedFiles cf).length ++ r) := by
  refine ⟨?_, ?_, ?_⟩
  · intro hn
    unfold bucketMessage
    rw [if_pos (List.length_pos.mpr hn)]
    refine ⟨" new file" ++ (if (newFiles cf).length > 1 then "s" else "") ++
      (if (newFiles cf).length ≤ 3 then
        ": " ++ String.intercalate ", " ((newFiles cf).map (·.file))
      else ""), ?_⟩
    apply String.ext
    simp [String.data_append, List.append_assoc]
  · intro hn hd
    unfold bucketMessage
    rw [if_neg (by simp [hn]), if_pos (List.length_pos.mpr hd)]
    refine ⟨" file" ++ (if (deletedFiles cf).length > 1 then "s" else "") ++
      (if (deletedFiles cf).length ≤ 3 then
        ": " ++ String.intercalate ", " ((deletedFiles cf).map (·.file))
      else ""), ?_⟩
    apply String.ext
    simp [String.data_append, List.append_assoc]
  · intro hn hd hm
    unfold bucketMessage
    rw [if_neg (by simp [hn]), if_neg (by simp [hd]), if_pos (List.length_pos.mpr hm)]
    refine ⟨" file" ++ (if (modifiedFiles cf).length > 1 then "s" else "") ++
      (if (modifiedFiles cf).length ≤ 3 then
        ": " ++ String.intercalate ", " ((modifiedFiles cf).map (·.file))
      else ""), ?_⟩
    apply String.ext
    simp [String.data_append, List.append_assoc]

/-- C5 witness: a mixed list with one pure addition, one pure deletion and
one modification; the Added bucket wins the headline. -/
theorem C5_witness :
    ([⟨"x.ts", 5, 5, 0⟩, ⟨"y.ts", 3, 0, 3⟩, ⟨"z.ts", 4, 2, 2⟩] : List ChangedFile) ≠ [] ∧
    newFiles [⟨"x.ts", 5, 5, 0⟩, ⟨"y.ts", 3, 0, 3⟩, ⟨"z.ts", 4, 2, 2⟩] ≠ [] ∧
    ∃ r, bucketMessage [⟨"x.ts", 5, 5, 0⟩, ⟨"y.ts", 3, 0, 3⟩, ⟨"z.ts", 4, 2, 2⟩] =
      "Add " ++
        toString (newFiles [⟨"x.ts", 5, 5, 0⟩, ⟨"y.ts", 3, 0, 3⟩, ⟨"z.ts", 4, 2, 2⟩]).length ++
        r :=
  ⟨by decide, by decide,
   (C5_bucket_precedence [⟨"x.ts", 5, 5, 0⟩, ⟨"y.ts", 3, 0, 3⟩, ⟨"z.ts", 4, 2, 2⟩]
     (by decide)).1 (by decide)⟩

/-- C6: the example listing is appended exactly when the winning bucket
has at most 3 members: the headline is then followed by ": " and the
bucket members' file names joined with ", " in filtered order, and for 4
or more members the listing is omitted. -/
theorem C6_listing_threshold (cf : List ChangedFile) (_h : cf ≠ []) :
    (newFiles cf ≠ [] →
      ((newFiles cf).length ≤ 3 → bucketMessage cf =
        "Add " ++ toString (newFiles cf).length ++ " new file" ++
          (if (newFiles cf).length > 1 then "s" else "") ++
          (": " ++ String.intercalate ", " ((newFiles cf).map (·.file)))) ∧
      (3 < (newFiles cf).length → bucketMessage cf =
        "Add " ++ toString (newFiles cf).length ++ " new files")) ∧
    (newFiles cf = [] → deletedFiles cf ≠ [] →
      ((deletedFiles cf).length ≤ 3 → bucketMessage cf =
        "Remove " ++ toString (deletedFiles cf).length ++ " file" ++
          (if (deletedFiles cf).length > 1 then "s" else "") ++
          (": " ++ String.intercalate ", " ((deletedFiles cf).map (·.file)))) ∧
      (3 < (deletedFiles cf).length → bucketMessage cf =
        "Remove " ++ toString (deletedFiles cf).length ++ " files")) ∧
    (newFiles cf = [] → deletedFiles cf = [] → modifiedFiles cf ≠ [] →
      ((modifiedFiles cf).length ≤ 3 → bucketMessage cf =
        "Update " ++ toString (modifiedFiles cf).length ++ " file" ++
          (if (modifiedFiles cf).length > 1 then "s" else "") ++
          (": " ++ String.intercalate ", " ((modifiedFiles cf).map (·.file)))) ∧
      (3 < (modifiedFiles cf).length → bucketMessage cf =
        "Update " ++ toString (modifiedFiles cf).length ++ " files")) := by
  refine ⟨?_, ?_, ?_⟩
  · intro hn
    unfold bucketMessage
    rw [if_pos (List.length_pos.mpr hn)]
    constructor
    · intro h3
      rw [if_pos h3]
    · intro h3
      rw [if_pos (by omega), if_neg (by omega),
        String.append_assoc ("Add " ++ toString (newFiles cf).length) " new file" "s",
        show (" new file" : String) ++ "s" = " new files" from by decide]
      apply String.ext
      simp [String.data_append]
  · intro hn hd
    unfold bucketMessage
    rw [if_neg (by simp [hn]), if_pos (List.length_pos.mpr hd)]
    constructor
    · intro h3
      rw [if_pos h3]
    · intro h3
      rw [if_pos (by omega), if_neg (by omega),
        String.append_assoc ("Remove " ++ toString (deletedFiles cf).length) " file" "s",
        show (" file" : String) ++ "s" = " files" from by decide]
      apply String.ext
      simp [String.data_append]
  · intro hn hd hm
    unfold bucketMessage
    rw [if_neg (by simp [hn]), if_neg (by simp [hd]), if_pos (List.length_pos.mpr hm)]
    constructor
    · intro h3
      rw [if_pos h3]
    · intro h3
      rw [if_pos (by omega), if_neg (by omega),
        String.append_assoc ("Update " ++ toString (modifiedFiles cf).length) " file" "s",
        show (" file" : String) ++ "s" = " files" from by decide]
      apply String.ext
      simp [String.data_append]

/-- C6 witness: a winning Added bucket of size 3 includes the listing; a
winning Added bucket of size 4 omits it. -/
theorem C6_witness :
    ([⟨"a", 1, 1, 0⟩, ⟨"b", 1, 1, 0⟩, ⟨"c", 1, 1, 0⟩] : List ChangedFile) ≠ [] ∧
    newFiles [⟨"a", 1, 1, 0⟩, ⟨"b", 1, 1, 0⟩, ⟨"c", 1, 1, 0⟩] ≠ [] ∧
    (newFiles [⟨"a", 1, 1, 0⟩, ⟨"b", 1, 1, 0⟩, ⟨"c", 1, 1, 0⟩]).length ≤ 3 ∧
    bucketMessage [⟨"a", 1, 1, 0⟩, ⟨"b", 1, 1, 0⟩, ⟨"c", 1, 1, 0⟩] =
      "Add " ++ toString (newFiles [⟨"a", 1, 1, 0⟩, ⟨"b", 1, 1, 0⟩, ⟨"c", 1, 1, 0⟩]).length ++
        " new file" ++
        (if (newFiles [⟨"a", 1, 1, 0⟩, ⟨"b", 1, 1, 0⟩, ⟨"c", 1, 1, 0⟩]).length > 1 then "s"
         else "") ++
        (": " ++ String.intercalate ", "
          ((newFiles [⟨"a", 1, 1, 0⟩, ⟨"b", 1, 1, 0⟩, ⟨"c", 1, 1, 0⟩]).map (·.file))) ∧
    3 < (newFiles [⟨"a", 1, 1, 0⟩, ⟨"b", 1, 1, 0⟩, ⟨"c", 1, 1, 0⟩, ⟨"d", 1, 1, 0⟩]).length ∧
    bucketMessage [⟨"a", 1, 1, 0⟩, ⟨"b", 1, 1, 0⟩, ⟨"c", 1, 1, 0⟩, ⟨"d", 1, 1, 0⟩] =
      "Add " ++
        toString
          (newFiles [⟨"a", 1, 1, 0⟩, ⟨"b", 1, 1, 0⟩, ⟨"c", 1, 1, 0⟩, ⟨"d", 1, 1, 0⟩]).length ++
        " new files" :=
  ⟨by decide, by decide, by decide,
   ((C6_listing_threshold [⟨"a", 1, 1, 0⟩, ⟨"b", 1, 1, 0⟩, ⟨"c", 1, 1, 0⟩] (by decide)).1
     (by decide)).1 (by decide),
   by decide,
   ((C6_listing_threshold [⟨"a", 1, 1, 0⟩, ⟨"b", 1, 1, 0⟩, ⟨"c", 1, 1, 0⟩, ⟨"d", 1, 1, 0⟩]
     (by decide)).1 (by decide)).2 (by decide)⟩

end MyAgent
